import Mathlib

/-!
Verification development for the scenario overlay resolution engine of the
idu_api repository.  Python database-access functions and plpgsql triggers are
shallowly embedded as Lean functions over explicit table states (lists of
rows); SQL joins, filters and aggregates are translated statement by
statement.  PostGIS geometry primitives, whose internal math the code treats
as opaque library calls, are passed in as function parameters; geometries
themselves are modelled as finite sets of integer lattice points.
-/

/- ------------------------------------------------------------------ -/
/- Shared modelling types                                              -/
/- ------------------------------------------------------------------ -/

/-- Geometries are modelled as finite sets of lattice points: intersection,
difference and emptiness of PostGIS geometries become the corresponding
finite-set operations. -/
abbrev Geom := Finset (Int × Int)

/- ------------------------------------------------------------------ -/
/- C9: logic/impl/helpers/projects_cadastres.py                        -/
/- ------------------------------------------------------------------ -/

/-- One statement executed on the database connection by
`put_project_cadastres_to_db`, in execution order.  `commitTxn` models
`conn.commit()`. -/
inductive CadastreStmt (α : Type) where
  | deleteByProject (projectId : Nat)
  | insertBatch (projectId : Nat) (rows : List α)
  | commitTxn
deriving DecidableEq

/-- Python `range(start, stop, step)` over naturals (the loop header
`range(0, len(cadastres), OBJECTS_NUMBER_TO_INSERT_LIMIT)` of the source). -/
def pyRange (start stop step : Nat) : List Nat :=
  if h : 0 < step ∧ start < stop then
    start :: pyRange (start + step) stop step
  else
    []
termination_by stop - start
decreasing_by omega

/-- Batch ceiling from `put_project_cadastres_to_db`
(`OBJECTS_NUMBER_TO_INSERT_LIMIT = 1_000`). -/
def OBJECTS_NUMBER_TO_INSERT_LIMIT : Nat := 1000

/-- Embedding of `put_project_cadastres_to_db` as the trace of statements it
executes on the connection: one `DELETE` of the pre-existing rows of the
project, then one `INSERT` per slice
`cadastres[batch_start : batch_start + 1000]` of the python loop, then a
single `conn.commit()`.  The permission check and the returned status dict
are orthogonal to the trace and omitted. -/
def put_project_cadastres_to_db {α : Type} (cadastres : List α) (projectId : Nat) :
    List (CadastreStmt α) :=
  CadastreStmt.deleteByProject projectId ::
    (pyRange 0 cadastres.length OBJECTS_NUMBER_TO_INSERT_LIMIT).map
      (fun batch_start =>
        CadastreStmt.insertBatch projectId
          ((cadastres.drop batch_start).take OBJECTS_NUMBER_TO_INSERT_LIMIT))
    ++ [CadastreStmt.commitTxn]

/-- Discriminator for insert statements in a cadastre trace. -/
def CadastreStmt.isInsert {α : Type} : CadastreStmt α → Bool
  | CadastreStmt.insertBatch _ _ => true
  | _ => false

/-- Discriminator for the commit statement in a cadastre trace. -/
def CadastreStmt.isCommit {α : Type} : CadastreStmt α → Bool
  | CadastreStmt.commitTxn => true
  | _ => false

/-- Rows inserted by a statement of a cadastre trace. -/
def CadastreStmt.insertedRows {α : Type} : CadastreStmt α → List α
  | CadastreStmt.insertBatch _ rows => rows
  | _ => []

/- ------------------------------------------------------------------ -/
/- C10: logic/impl/helpers/indicators.py and entities/tech/binds.py    -/
/- ------------------------------------------------------------------ -/

/-- Row of `tech.territory_indicators_binds_data`
(entities/tech/binds.py); primary key (indicator_id, territory_id, level).
The FLOAT(53) value columns are modelled as rationals: the engine only
stores and compares them, never computes with them. -/
structure BindRow where
  indicator_id : Nat
  territory_id : Nat
  level : Nat
  min_value : ℚ
  max_value : ℚ
deriving DecidableEq

/-- Conflict predicate of the upsert in `put_territory_indicator_bind_to_db`:
`index_elements=["territory_id", "indicator_id", "level"]`. -/
def sameBindKey (r bind : BindRow) : Bool :=
  r.territory_id == bind.territory_id && r.indicator_id == bind.indicator_id &&
    r.level == bind.level

/-- Embedding of the
`insert(...).values(**bind).on_conflict_do_update(index_elements=[territory_id,
indicator_id, level], set_={min_value, max_value})` statement of
`put_territory_indicator_bind_to_db`: if a row with the conflicting key
exists it is updated in place, otherwise the new row is appended. -/
def upsertTerritoryIndicatorBind (table : List BindRow) (bind : BindRow) : List BindRow :=
  if table.any (fun r => sameBindKey r bind) then
    table.map (fun r =>
      if sameBindKey r bind then
        { r with min_value := bind.min_value, max_value := bind.max_value }
      else r)
  else
    table ++ [bind]

/-- Embedding of `get_territory_indicators_binds_from_db` restricted to the
bind-table columns, at the filters used by `put_territory_indicator_bind_to_db`
(`EqFilter territory_id`, `EqFilter level`, `InFilter indicator_id` with the
singleton set): the joins to `indicators_dict` and `territories_data` only
decorate each row with display names and are dropped. -/
def get_territory_indicators_binds_from_db (table : List BindRow)
    (territory_id level indicator_id : Nat) : List BindRow :=
  table.filter (fun r =>
    r.territory_id == territory_id && r.level == level && r.indicator_id == indicator_id)

/-- Embedding of `put_territory_indicator_bind_to_db`: executes the upsert,
commits, then re-reads the bind by its key and returns `result[0]` (modelled
as `head?`).  Returns the new table state together with the returned row. -/
def put_territory_indicator_bind_to_db (table : List BindRow) (bind : BindRow) :
    List BindRow × Option BindRow :=
  let table1 := upsertTerritoryIndicatorBind table bind
  (table1,
    (get_territory_indicators_binds_from_db table1 bind.territory_id bind.level
      bind.indicator_id).head?)

/-- Primary-key invariant of `tech.territory_indicators_binds_data`: no two
rows share the (indicator_id, territory_id, level) key. -/
def bindKeysUnique (table : List BindRow) : Prop :=
  table.Pairwise (fun a b => sameBindKey a b = false)

/- ------------------------------------------------------------------ -/
/- C4 and C8: logic/impl/helpers/territories_indicators.py             -/
/- ------------------------------------------------------------------ -/

/-- Row of `territory_indicators_data` (the columns the embedded query
reads).  Dates are modelled as naturals. -/
structure IndicatorValueRow where
  indicator_id : Nat
  territory_id : Nat
  date_value : Nat
  value_type : String
  information_source : String
  value : Int
deriving DecidableEq

/-- Row of `territories_data` (the columns the embedded query reads). -/
structure TerritoryRow where
  territory_id : Nat
  name : String
  level : Nat
deriving DecidableEq

/-- Output row of `get_indicator_values_by_territory_id_from_db`
(`BinnedIndicatorValueDTO` fields the claim is about): the indicator value
columns plus the outer-joined bind bracket, which is NULL when no bind row
was joined. -/
structure BinnedIndicatorValueRow where
  indicator_id : Nat
  territory_id : Nat
  date_value : Nat
  value_type : String
  information_source : String
  value : Int
  territory_name : String
  binned_min_value : Option ℚ
  binned_max_value : Option ℚ
deriving DecidableEq

/-- Grouped-maximum subquery of the `last_only` branch (identical in
`get_indicator_values_by_territory_id_from_db` and
`get_indicator_values_by_parent_id_from_db`): the maximum `date_value` among
the rows sharing the (indicator_id, value_type, territory_id) group of the
`group_by`. -/
def lastOnlyMaxDate (rows : List IndicatorValueRow) (indicator_id : Nat)
    (value_type : String) (territory_id : Nat) : Option Nat :=
  ((rows.filter (fun r =>
      r.indicator_id == indicator_id && r.value_type == value_type &&
        r.territory_id == territory_id)).map (fun r => r.date_value)).max?

/-- Join of `territory_indicators_data` against the grouped-maximum subquery
on (indicator_id, value_type, territory_id, date_value = max_date): a row
survives exactly when its date equals the maximum date of its own group. -/
def lastOnlyJoin (rows : List IndicatorValueRow) : List IndicatorValueRow :=
  rows.filter (fun r =>
    lastOnlyMaxDate rows r.indicator_id r.value_type r.territory_id == some r.date_value)

/-- Key equality of the `last_only` grouping: same indicator, same value
type, same territory. -/
def sameValueKey (a b : IndicatorValueRow) : Prop :=
  a.indicator_id = b.indicator_id ∧ a.value_type = b.value_type ∧
    a.territory_id = b.territory_id

/-- LEFT OUTER JOIN of one indicator-value row (whose territory has level
`lvl`) against `territory_indicators_binds_data` with the ON condition of the
source, which constrains only `indicator_id` and `level`:
`binds.indicator_id == indicators.indicator_id AND binds.level ==
territories.level`.  No match yields the single NULL-extended row. -/
def bindJoinCandidates (binds : List BindRow) (indicator_id lvl : Nat) :
    List (Option BindRow) :=
  let matched := binds.filter (fun b => b.indicator_id == indicator_id && b.level == lvl)
  if matched.isEmpty then [none] else matched.map some

/-- WHERE clause of `get_indicator_values_by_territory_id_from_db` applied to
the outer-joined bind row, embedded literally from the source:
`((binds.territory_id == parent_region_id) & binds.min_value.isnot(None) &
binds.max_value.isnot(None)) | True`. -/
def bindsWhereClause (parent_region_id : Nat) (b : Option BindRow) : Bool :=
  ((b.map (fun bb => bb.territory_id) == some parent_region_id) &&
      (b.map (fun bb => bb.min_value)).isSome &&
      (b.map (fun bb => bb.max_value)).isSome)
    || true

/-- Projection of a joined (value, territory, bind?) triple onto the selected
output columns. -/
def mkBinnedRow (v : IndicatorValueRow) (t : TerritoryRow) (b : Option BindRow) :
    BinnedIndicatorValueRow :=
  { indicator_id := v.indicator_id
    territory_id := v.territory_id
    date_value := v.date_value
    value_type := v.value_type
    information_source := v.information_source
    value := v.value
    territory_name := t.name
    binned_min_value := b.map (fun bb => bb.min_value)
    binned_max_value := b.map (fun bb => bb.max_value) }

/-- Embedding of `get_indicator_values_by_territory_id_from_db` at the
parameterization the claims address: no indicator/group/date/value-type/source
filters and `include_child_territories = False` (so the territory filter is
`EqFilter(territory_indicators_data, "territory_id", territory_id)`).
Pipeline of the source statement: optional `last_only` grouped-maximum join,
inner join to `territories_data`, LEFT OUTER JOIN to
`territory_indicators_binds_data` on (indicator_id, level), then the WHERE
clause `((binds.territory_id == parent_region_id) & min/max not null) | True`
and `distinct()`.  `parent_region_id` abstracts `get_parent_region_id`, whose
module is not part of the sources. -/
def get_indicator_values_by_territory_id_from_db (values : List IndicatorValueRow)
    (territories : List TerritoryRow) (binds : List BindRow)
    (territory_id parent_region_id : Nat) (last_only : Bool) :
    List BinnedIndicatorValueRow :=
  let base := if last_only then lastOnlyJoin values else values
  ((base.filter (fun v => v.territory_id == territory_id)).flatMap (fun v =>
    match territories.find? (fun t => t.territory_id == v.territory_id) with
    | none => []
    | some t =>
      (bindJoinCandidates binds v.indicator_id t.level).filterMap (fun b =>
        if bindsWhereClause parent_region_id b then some (mkBinnedRow v t b) else none))).dedup

/- ------------------------------------------------------------------ -/
/- C6 and C7: migrator/versions/2025-11-07_89402c8953bb and            -/
/- common/exceptions/utils/translate.py                                -/
/- ------------------------------------------------------------------ -/

/-- Error raised by a plpgsql `RAISE EXCEPTION ... USING ERRCODE`.  Only the
SQLSTATE code is tracked; the message text is orthogonal to the claims. -/
structure PgTriggerError where
  errcode : String
deriving DecidableEq

/-- Row of `public.default_buffer_values_dict` as read by the trigger. -/
structure DefaultBufferValue where
  buffer_type_id : Nat
  physical_object_type_id : Option Nat
  service_type_id : Option Nat
  buffer_value : ℚ
deriving DecidableEq

/-- Join context of the public-schema trigger for the urban object owning the
buffer: `uod.service_id`, the left-joined `pod.physical_object_type_id` and
`sd.service_type_id`, and the geometry obtained by joining
`object_geometries_data` (NULL when the join finds nothing, which raises
P0111). -/
structure PublicBufferCtx where
  service_id : Option Nat
  pod_physical_object_type_id : Option Nat
  sd_service_type_id : Option Nat
  object_geom : Option Geom
deriving DecidableEq

/-- SELECT `buffer_value ... LIMIT 1` of the trigger: the first
`default_buffer_values_dict` row with the requested `buffer_type_id` whose
(physical-object type, service type) scoping matches the computed pair, with
the mutual-exclusivity conditions of the source WHERE clause. -/
def default_buffer_radius_lookup (dict : List DefaultBufferValue) (buffer_type_id : Nat)
    (v_physical_object_type_id v_service_type_id : Option Nat) : Option DefaultBufferValue :=
  (dict.filter (fun row =>
    row.buffer_type_id == buffer_type_id &&
      ((v_physical_object_type_id.isSome &&
          v_physical_object_type_id == row.physical_object_type_id &&
          row.service_type_id == none)
        ||
        (v_service_type_id.isSome &&
          v_service_type_id == row.service_type_id &&
          row.physical_object_type_id == none)))).head?

/-- Result row returned by a trigger function: the (possibly NULL) geometry
written into `NEW.geometry` plus the `RAISE NOTICE` warnings emitted. -/
structure TriggerRow where
  geometry : Option Geom
  notices : List String
deriving DecidableEq

/-- Embedding of `public.trigger_set_default_buffer_geometry` from migration
2025-11-07_89402c8953bb (upgrade, `schema = "public"`).  `stBuffer g r`
models `ST_Transform(ST_Buffer(g::geography, r)::geometry, ST_SRID(g))` and
`stMakeValid` models `ST_MakeValid`; both are opaque PostGIS calls passed as
parameters.  `ST_Difference`, `ST_IsEmpty` become finite-set difference and
emptiness.  The CASE expressions computing `v_physical_object_type_id` and
`v_service_type_id` and the `LIMIT 1` radius select are translated clause by
clause. -/
def trigger_set_default_buffer_geometry_public (stBuffer : Geom → ℚ → Geom)
    (stMakeValid : Geom → Geom) (ctx : PublicBufferCtx)
    (dict : List DefaultBufferValue) (buffer_type_id : Nat)
    (new_geometry : Option Geom) : Except PgTriggerError TriggerRow :=
  match new_geometry with
  | none =>
    match ctx.object_geom with
    | none => Except.error { errcode := "P0111" }
    | some v_object_geom =>
      let v_physical_object_type_id :=
        if ctx.service_id = none then ctx.pod_physical_object_type_id else none
      let v_service_type_id :=
        if ctx.service_id ≠ none then ctx.sd_service_type_id else none
      match default_buffer_radius_lookup dict buffer_type_id v_physical_object_type_id
          v_service_type_id with
      | none => Except.error { errcode := "P0112" }
      | some row =>
        Except.ok
          { geometry := some (stBuffer v_object_geom row.buffer_value \ v_object_geom)
            notices := [] }
  | some provided =>
    match ctx.object_geom with
    | none => Except.error { errcode := "P0111" }
    | some v_object_geom =>
      let g1 := stMakeValid provided
      let g2 := g1 \ v_object_geom
      Except.ok
        { geometry := some g2
          notices :=
            if g2 = ∅ then ["Resulting provided-buffer geometry is empty"] else [] }

/-- Join context of the `user_projects`-schema trigger: the scenario urban
object columns used by the CASE type logic, the object geometry, and the
result of the project join `scenarios_data -> projects_data ->
projects_territory_data` (`none` when that inner join returns no row, in
which case both `v_project_geom` and `v_is_regional` stay NULL). -/
structure ScenarioBufferCtx where
  service_id : Option Nat
  public_service_id : Option Nat
  physical_object_id : Option Nat
  pod_physical_object_type_id : Option Nat
  p_pod_physical_object_type_id : Option Nat
  sd_service_type_id : Option Nat
  p_sd_service_type_id : Option Nat
  object_geom : Option Geom
  project_join : Option (Option Geom × Bool)
deriving DecidableEq

/-- Embedding of `user_projects.trigger_set_default_buffer_geometry` from
migration 2025-11-07_89402c8953bb (upgrade, `schema = "user_projects"`),
keeping the runtime behaviour of the plpgsql exactly as written:

* In the derived branch (`NEW.geometry IS NULL`) the protected assignment
  reads `v_buffer_value`, an identifier that is neither declared in the
  DECLARE block (which declares `buffer_radius` and fills it with the radius
  select) nor a column in scope, so at run time PostgreSQL raises
  undefined-column 42703; the surrounding `EXCEPTION WHEN OTHERS` handler
  catches it, emits the `RAISE NOTICE` and executes `RETURN NEW` with
  `NEW.geometry` still NULL.
* In the provided branch (`NEW.geometry IS NOT NULL`) the variables
  `v_project_geom` and `v_is_regional` are never assigned (the project join
  runs only in the derived branch), so the clipping guard
  `(v_project_geom IS NOT NULL) AND (v_is_regional IS NOT TRUE)` can never
  hold and the `ST_Intersection` with the project territory is dead code.

The three-valued condition `v_project_geom IS NULL AND NOT v_is_regional` of
the P0113 check is true only when the joined geometry is NULL while
`is_regional` is FALSE. -/
def trigger_set_default_buffer_geometry_user_projects (stBuffer : Geom → ℚ → Geom)
    (stMakeValid : Geom → Geom) (ctx : ScenarioBufferCtx)
    (dict : List DefaultBufferValue) (buffer_type_id : Nat)
    (new_geometry : Option Geom) : Except PgTriggerError TriggerRow :=
  match new_geometry with
  | none =>
    match ctx.object_geom with
    | none => Except.error { errcode := "P0111" }
    | some _v_object_geom =>
      let v_physical_object_type_id :=
        if ctx.service_id = none ∧ ctx.public_service_id = none then
          (if ctx.physical_object_id ≠ none then ctx.pod_physical_object_type_id
           else ctx.p_pod_physical_object_type_id)
        else none
      let v_service_type_id :=
        if ctx.service_id ≠ none then ctx.sd_service_type_id
        else if ctx.public_service_id ≠ none then ctx.p_sd_service_type_id
        else none
      match default_buffer_radius_lookup dict buffer_type_id v_physical_object_type_id
          v_service_type_id with
      | none => Except.error { errcode := "P0112" }
      | some _row =>
        let v_project_geom : Option Geom :=
          match ctx.project_join with
          | none => none
          | some pr => pr.1
        let v_is_regional : Option Bool :=
          match ctx.project_join with
          | none => none
          | some pr => some pr.2
        if v_project_geom = none ∧ v_is_regional = some false then
          Except.error { errcode := "P0113" }
        else
          -- The assignment to result_geom references the undeclared
          -- v_buffer_value: 42703 is raised, caught by WHEN OTHERS, and the
          -- function returns NEW with geometry still NULL.
          Except.ok
            { geometry := none
              notices := ["Buffer generation failed"] }
  | some provided =>
    match ctx.object_geom with
    | none => Except.error { errcode := "P0111" }
    | some v_object_geom =>
      -- v_project_geom and v_is_regional are declared but never assigned in
      -- this branch; both are NULL here.
      let v_project_geom : Option Geom := none
      let v_is_regional : Option Bool := none
      let g1 := stMakeValid provided
      let g2 := g1 \ v_object_geom
      let g3 :=
        if v_project_geom.isSome && !(v_is_regional == some true) then
          (v_project_geom.map (fun pg => g2 ∩ pg)).getD g2
        else g2
      Except.ok
        { geometry := some g3
          notices :=
            if g3 = ∅ then ["Resulting provided-buffer geometry is empty"] else [] }

/-- Domain error taxonomy produced by `translate_db_error`
(common/exceptions/utils/translate.py). -/
inductive IduApiError where
  | uniqueConstraintError
  | dependencyNotFound
  | customTriggerError
  | invalidValueError
  | iduApiError
deriving DecidableEq

/-- Substring occurrence over character lists (python `k in combined_text`):
the pattern is a prefix of some suffix of the text. -/
def charSubOccurs (pat s : List Char) : Bool :=
  pat.isPrefixOf s ||
    match s with
    | [] => false
    | _ :: rest => charSubOccurs pat rest

/-- Substring occurrence used to embed python `k in combined_text`. -/
def occursIn (pat s : String) : Bool := charSubOccurs pat.data s.data

/-- Unique-violation fallback keywords `_UNIQUE_KEYWORDS` of translate.py. -/
def UNIQUE_KEYWORDS : List String :=
  ["duplicate key", "violates unique constraint", "already exists",
    "unique constraint", "duplicate", "повторяющ", "уже существует", "уже есть",
    "ограничени", "уникальн"]

/-- Foreign-key fallback keywords `_FK_KEYWORDS` of translate.py. -/
def FK_KEYWORDS : List String :=
  ["violates foreign key constraint", "foreign key", "is not present in table",
    "references", "внешн", "не существует в таблице", "отсутствует в таблице"]

/-- SQLSTATE loop of `translate_db_error`: the first code equal to 23505
translates to a unique-constraint error, 23503 to a dependency-not-found
error, and any code starting with "P" to a custom-trigger error. -/
def translateSqlstates : List String → Option IduApiError
  | [] => none
  | ss :: rest =>
    if ss = "23505" then some IduApiError.uniqueConstraintError
    else if ss = "23503" then some IduApiError.dependencyNotFound
    else if ("P").data.isPrefixOf ss.data then some IduApiError.customTriggerError
    else translateSqlstates rest

/-- Embedding of `translate_db_error` for integrity/DBAPI errors: the
SQLSTATE check, then the keyword fallbacks over the lowercased combined
exception text, then the generic `IduApiError` fallback. -/
def translate_db_error (sqlstates : List String) (combined_text : String) : IduApiError :=
  match translateSqlstates sqlstates with
  | some e => e
  | none =>
    if UNIQUE_KEYWORDS.any (fun k => occursIn k combined_text) then
      IduApiError.uniqueConstraintError
    else if FK_KEYWORDS.any (fun k => occursIn k combined_text) then
      IduApiError.dependencyNotFound
    else if occursIn ("int32") combined_text || occursIn ("out of range") combined_text then
      IduApiError.invalidValueError
    else IduApiError.iduApiError

/- ------------------------------------------------------------------ -/
/- C1, C2, C3, C5: the scenario overlay resolver and writer.           -/
/- The module logic/impl/helpers/projects_physical_objects.py and the  -/
/- urban-object table declarations are not among the sources (only     -/
/- their unit tests are), so the resolver and writer are modelled      -/
/- from the specification.                                             -/
/- ------------------------------------------------------------------ -/

/-- Modelled from the spec: scenario-owned or base physical-object payload
row (`physical_objects_data` / `projects_physical_objects_data`), with two
representative payload columns. -/
structure PhysObjRow where
  physical_object_id : Nat
  name : String
  properties : String
deriving DecidableEq

/-- Modelled from the spec: object-geometry payload row
(`object_geometries_data` / `projects_object_geometries_data`). -/
structure ObjGeomRow where
  object_geometry_id : Nat
  territory_id : Nat
  geometry : Geom
deriving DecidableEq

/-- Modelled from the spec: a base-layer urban object
(`urban_objects_data`), the identity binding a physical object to a
geometry. -/
structure BaseUrbanObject where
  urban_object_id : Nat
  physical_object_id : Nat
  object_geometry_id : Nat
deriving DecidableEq

/-- Modelled from the spec: a scenario overlay-link row
(`projects_urban_objects_data`).  A non-null `public_urban_object_id` makes
the row a tombstone or promotion marker for that base identity; a row with
null `public_urban_object_id` is a scenario-contributed row whose payload
pointers are `physical_object_id` / `object_geometry_id` (scenario-owned
sub-objects) and `public_physical_object_id` / `public_object_geometry_id`
(base sub-objects it did not override). -/
structure ScenarioLink where
  scenario_id : Nat
  public_urban_object_id : Option Nat
  physical_object_id : Option Nat
  object_geometry_id : Option Nat
  public_physical_object_id : Option Nat
  public_object_geometry_id : Option Nat
deriving DecidableEq

/-- Modelled from the spec: the table state the overlay resolver reads. -/
structure OverlayDb where
  base_urban_objects : List BaseUrbanObject
  base_physical_objects : List PhysObjRow
  base_object_geometries : List ObjGeomRow
  scenario_links : List ScenarioLink
  scenario_physical_objects : List PhysObjRow
  scenario_object_geometries : List ObjGeomRow
deriving DecidableEq

/-- Key lookup of a physical-object payload row (SQL join on
`physical_object_id`); `none` models a NULL foreign key or a failed outer
join. -/
def findPhysObj (rows : List PhysObjRow) (id : Option Nat) : Option PhysObjRow :=
  id.bind (fun i => rows.find? (fun r => r.physical_object_id == i))

/-- Key lookup of an object-geometry payload row (SQL join on
`object_geometry_id`). -/
def findObjGeom (rows : List ObjGeomRow) (id : Option Nat) : Option ObjGeomRow :=
  id.bind (fun i => rows.find? (fun r => r.object_geometry_id == i))

/-- Modelled from the spec: the excluded-base-id set of a scenario — all base
identities for which the scenario holds a row with a non-null
`public_urban_object_id` pointer (tombstones and promotion markers). -/
def excludedBaseIds (db : OverlayDb) (scenario_id : Nat) : List Nat :=
  (db.scenario_links.filter (fun l =>
    l.scenario_id == scenario_id && l.public_urban_object_id.isSome)).filterMap
    (fun l => l.public_urban_object_id)

/-- Origin tag of a resolved row. -/
inductive RowOrigin where
  | base
  | scenario
deriving DecidableEq

/-- Merged output record of the overlay resolver (the payload columns of the
embedded model, each nullable as in the unioned SQL result). -/
structure ResolvedRow where
  physical_object_id : Option Nat
  name : Option String
  properties : Option String
  territory_id : Option Nat
  is_scenario_object : Bool
  origin : RowOrigin
deriving DecidableEq

/-- SQL `coalesce` of two nullable values: the first operand wins where
present, the second fills the rest. -/
def coalesceOpt {α : Type} (a b : Option α) : Option α :=
  match a with
  | some x => some x
  | none => b

/-- Modelled from the spec: contribution of one base urban object to branch A
of the resolver — inner joins to its payload rows, the reachable-territory
predicate, and the excluded-base-id check; `none` when the row is filtered
out. -/
def baseBranchRow (db : OverlayDb) (scenario_id : Nat) (reach : List Nat)
    (b : BaseUrbanObject) : Option ResolvedRow :=
  match findPhysObj db.base_physical_objects (some b.physical_object_id),
      findObjGeom db.base_object_geometries (some b.object_geometry_id) with
  | some po, some ge =>
    if b.urban_object_id ∉ excludedBaseIds db scenario_id ∧ ge.territory_id ∈ reach then
      some
        { physical_object_id := some po.physical_object_id
          name := some po.name
          properties := some po.properties
          territory_id := some ge.territory_id
          is_scenario_object := false
          origin := RowOrigin.base }
    else none
  | _, _ => none

/-- Modelled from the spec: branch A (base contribution) of the resolver. -/
def baseBranch (db : OverlayDb) (scenario_id : Nat) (reach : List Nat) : List ResolvedRow :=
  db.base_urban_objects.filterMap (baseBranchRow db scenario_id reach)

/-- Modelled from the spec: the scenario rows feeding branch B — the
scenario's links whose `public_urban_object_id` pointer is null (tombstones
and promotion markers contribute nothing). -/
def scenarioBranchLinks (db : OverlayDb) (scenario_id : Nat) : List ScenarioLink :=
  db.scenario_links.filter (fun l =>
    l.scenario_id == scenario_id && l.public_urban_object_id == none)

/-- Modelled from the spec: branch B row construction — left joins of the
link against the scenario-owned and base payload tables with
coalesce-by-priority per column (scenario payload wins where present, base
payload fills the remaining columns), tagged `origin = scenario` and
`is_scenario_object = (physical_object_id is non-null)`. -/
def mergeScenarioRow (db : OverlayDb) (l : ScenarioLink) : ResolvedRow :=
  let spo := findPhysObj db.scenario_physical_objects l.physical_object_id
  let bpo := findPhysObj db.base_physical_objects l.public_physical_object_id
  let sge := findObjGeom db.scenario_object_geometries l.object_geometry_id
  let bge := findObjGeom db.base_object_geometries l.public_object_geometry_id
  { physical_object_id :=
      coalesceOpt (spo.map (fun r => r.physical_object_id))
        (bpo.map (fun r => r.physical_object_id))
    name := coalesceOpt (spo.map (fun r => r.name)) (bpo.map (fun r => r.name))
    properties :=
      coalesceOpt (spo.map (fun r => r.properties)) (bpo.map (fun r => r.properties))
    territory_id :=
      coalesceOpt (sge.map (fun r => r.territory_id)) (bge.map (fun r => r.territory_id))
    is_scenario_object := l.physical_object_id.isSome
    origin := RowOrigin.scenario }

/-- Modelled from the spec: `resolve(scenario, kind)` for the physical-object
kind — the union of branch A and branch B, with the reachable-territory set
materialized once per request and passed in as `reach`. -/
def resolveScenario (db : OverlayDb) (scenario_id : Nat) (reach : List Nat) :
    List ResolvedRow :=
  baseBranch db scenario_id reach ++
    (scenarioBranchLinks db scenario_id).map (mergeScenarioRow db)

/-- Modelled from the spec: Promote-on-edit of a base identity that currently
resolves to the base tier — in one transaction, insert the tombstone
(promotion marker) for the base identity and the owned row holding the new
payload, which keeps a pointer to the base sub-object it did not override
(here the base geometry). -/
def promoteOnEdit (db : OverlayDb) (scenario_id : Nat) (b : BaseUrbanObject)
    (newPo : PhysObjRow) : OverlayDb :=
  { db with
    scenario_links := db.scenario_links ++
      [{ scenario_id := scenario_id
         public_urban_object_id := some b.urban_object_id
         physical_object_id := none
         object_geometry_id := none
         public_physical_object_id := none
         public_object_geometry_id := none },
       { scenario_id := scenario_id
         public_urban_object_id := none
         physical_object_id := some newPo.physical_object_id
         object_geometry_id := none
         public_physical_object_id := none
         public_object_geometry_id := some b.object_geometry_id }]
    scenario_physical_objects := db.scenario_physical_objects ++ [newPo] }

/-- Modelled from the spec: the base identities an owned link row carries a
pointer back to — the base urban objects owning a sub-object the link did not
override. -/
def pairedBaseIds (db : OverlayDb) (l : ScenarioLink) : List Nat :=
  (db.base_urban_objects.filter (fun b =>
    l.public_physical_object_id == some b.physical_object_id ||
      l.public_object_geometry_id == some b.object_geometry_id)).map
    (fun b => b.urban_object_id)

/-- Modelled from the spec: Hide-on-delete of a scenario-owned physical
object — delete the owned payload row and its link rows outright, and, since
deleting the owned row counts as removing the tombstone-equivalent
exclusion, delete the paired tombstones of the base identities the owned row
carried a pointer to, restoring those identities to Inherited. -/
def delete_physical_object_scenario (db : OverlayDb) (scenario_id po_id : Nat) :
    OverlayDb :=
  let owned := db.scenario_links.filter (fun l =>
    l.scenario_id == scenario_id && l.physical_object_id == some po_id)
  let released := owned.flatMap (pairedBaseIds db)
  { db with
    scenario_links := db.scenario_links.filter (fun l =>
      !(l.scenario_id == scenario_id && l.physical_object_id == some po_id) &&
        !(l.scenario_id == scenario_id &&
          l.public_urban_object_id.any (fun bid => released.contains bid)))
    scenario_physical_objects := db.scenario_physical_objects.filter (fun p =>
      p.physical_object_id != po_id) }

/-- Output record of a context read: the merged payload plus the clipped
geometry contributed by the row. -/
structure ContextRow where
  physical_object_id : Option Nat
  name : Option String
  geometry : Geom
  origin : RowOrigin
deriving DecidableEq

/-- Modelled from the spec: branch A contribution of one base urban object to
a context read — the reachable-territory predicate is replaced by a
spatial-intersection predicate against the caller-supplied boundary, the
contributed geometry is clipped by intersecting it with the boundary, and a
row whose clipped geometry is empty is dropped. -/
def contextBaseBranchRow (db : OverlayDb) (scenario_id : Nat) (boundary : Geom)
    (b : BaseUrbanObject) : Option ContextRow :=
  match findPhysObj db.base_physical_objects (some b.physical_object_id),
      findObjGeom db.base_object_geometries (some b.object_geometry_id) with
  | some po, some ge =>
    if b.urban_object_id ∉ excludedBaseIds db scenario_id ∧ ge.geometry ∩ boundary ≠ ∅ then
      let clipped := ge.geometry ∩ boundary
      if clipped = ∅ then none
      else
        some
          { physical_object_id := some po.physical_object_id
            name := some po.name
            geometry := clipped
            origin := RowOrigin.base }
    else none
  | _, _ => none

/-- Modelled from the spec: branch B contribution of one scenario link to a
context read — coalesce-by-priority geometry, clipped by the boundary, empty
results dropped. -/
def contextScenarioBranchRow (db : OverlayDb) (boundary : Geom) (l : ScenarioLink) :
    Option ContextRow :=
  let spo := findPhysObj db.scenario_physical_objects l.physical_object_id
  let bpo := findPhysObj db.base_physical_objects l.public_physical_object_id
  let sge := findObjGeom db.scenario_object_geometries l.object_geometry_id
  let bge := findObjGeom db.base_object_geometries l.public_object_geometry_id
  match coalesceOpt (sge.map (fun r => r.geometry)) (bge.map (fun r => r.geometry)) with
  | none => none
  | some g =>
    let clipped := g ∩ boundary
    if clipped = ∅ then none
    else
      some
        { physical_object_id :=
            coalesceOpt (spo.map (fun r => r.physical_object_id))
              (bpo.map (fun r => r.physical_object_id))
          name := coalesceOpt (spo.map (fun r => r.name)) (bpo.map (fun r => r.name))
          geometry := clipped
          origin := RowOrigin.scenario }

/-- Modelled from the spec: a context read (objects around, not inside, the
project) — the two-branch union with spatial-intersection predicate,
clipping, and empty-clipped rows dropped. -/
def get_context_physical_objects (db : OverlayDb) (scenario_id : Nat)
    (boundary : Geom) : List ContextRow :=
  db.base_urban_objects.filterMap (contextBaseBranchRow db scenario_id boundary) ++
    (scenarioBranchLinks db scenario_id).filterMap (contextScenarioBranchRow db boundary)

/- ------------------------------------------------------------------ -/
/- Theorems                                                            -/
/- ------------------------------------------------------------------ -/

/-- Length of the python loop header: `range(start, stop, step)` has
ceil((stop - start) / step) iterations. -/
theorem pyRange_length (start stop step : Nat) :
    0 < step → (pyRange start stop step).length = (stop - start + step - 1) / step := by
  induction start, stop, step using pyRange.induct with
  | case1 start stop step hc ih =>
    intro hstep
    rw [pyRange, dif_pos hc, List.length_cons, ih hstep]
    have hr : stop - start + step - 1 = (stop - start - 1) + step := by omega
    rw [hr, Nat.add_div_right _ hstep]
    rcases le_or_lt (stop - start) step with h1 | h2
    · have hl : stop - (start + step) + step - 1 = step - 1 := by omega
      rw [hl, Nat.div_eq_of_lt (by omega), Nat.div_eq_of_lt (by omega)]
    · have hl : stop - (start + step) + step - 1 = stop - start - 1 := by omega
      rw [hl]
  | case2 start stop step hc =>
    intro hstep
    rw [pyRange, dif_neg hc]
    simp only [List.length_nil]
    symm
    apply Nat.div_eq_of_lt
    omega

/-- Concatenating the python-slice batches of the loop recovers the suffix of
the input list the loop started from. -/
theorem pyRange_chunks_flatten {α : Type} (xs : List α) :
    ∀ start stop step, 0 < step → stop = xs.length →
      ((pyRange start stop step).map (fun i => (xs.drop i).take step)).flatten =
        xs.drop start := by
  intro start stop step
  induction start, stop, step using pyRange.induct with
  | case1 start stop step hc ih =>
    intro hstep hlen
    rw [pyRange, dif_pos hc, List.map_cons, List.flatten_cons, ih hstep hlen]
    rw [← List.drop_drop, List.take_append_drop]
  | case2 start stop step hc =>
    intro hstep hlen
    rw [pyRange, dif_neg hc]
    simp only [List.map_nil, List.flatten_nil]
    symm
    apply List.drop_eq_nil_of_le
    omega

/-- Filtering the cadastre trace for insert statements keeps exactly the
mapped batch statements. -/
theorem cadastre_trace_filter_isInsert {α : Type} (pid : Nat) (f : Nat → List α)
    (R : List Nat) :
    ((CadastreStmt.deleteByProject pid ::
        R.map (fun i => CadastreStmt.insertBatch pid (f i))) ++
      [CadastreStmt.commitTxn]).filter (fun s => s.isInsert) =
      R.map (fun i => CadastreStmt.insertBatch pid (f i)) := by
  induction R with
  | nil => rfl
  | cons a as ih =>
    simp only [List.map_cons, List.cons_append, List.filter_cons,
      CadastreStmt.isInsert] at ih ⊢
    simp only [Bool.false_eq_true, if_false, if_true] at ih ⊢
    rw [ih]

/-- Filtering the cadastre trace for commit statements keeps exactly the one
trailing commit. -/
theorem cadastre_trace_filter_isCommit {α : Type} (pid : Nat) (f : Nat → List α)
    (R : List Nat) :
    ((CadastreStmt.deleteByProject pid ::
        R.map (fun i => CadastreStmt.insertBatch pid (f i))) ++
      [CadastreStmt.commitTxn]).filter (fun s => s.isCommit) =
      [CadastreStmt.commitTxn] := by
  induction R with
  | nil => rfl
  | cons a as ih =>
    simp only [List.map_cons, List.cons_append, List.filter_cons,
      CadastreStmt.isCommit] at ih ⊢
    simp only [Bool.false_eq_true, if_false, if_true] at ih ⊢
    exact ih

/-- C9: bulk cadastre upload deletes the pre-existing rows, inserts the input
in physical batches of at most 1,000 rows per statement — ceil(n/1000) insert
statements whose batches concatenate back to the input — and a single commit
follows them all. -/
theorem c9_cadastre_bulk_upload_batches_and_single_commit {α : Type}
    (cadastres : List α) (projectId : Nat) :
    ((put_project_cadastres_to_db cadastres projectId).filter
        (fun s => s.isInsert)).length = (cadastres.length + 999) / 1000
    ∧ (∀ rows : List α,
        CadastreStmt.insertBatch projectId rows ∈
            put_project_cadastres_to_db cadastres projectId →
          rows.length ≤ 1000)
    ∧ (((put_project_cadastres_to_db cadastres projectId).map
        (fun s => s.insertedRows)).flatten = cadastres)
    ∧ (put_project_cadastres_to_db cadastres projectId).getLast? =
        some CadastreStmt.commitTxn
    ∧ (put_project_cadastres_to_db cadastres projectId).filter
        (fun s => s.isCommit) = [CadastreStmt.commitTxn]
    ∧ (put_project_cadastres_to_db cadastres projectId).head? =
        some (CadastreStmt.deleteByProject projectId) := by
  refine ⟨?_, ?_, ?_, ?_, ?_, rfl⟩
  · rw [put_project_cadastres_to_db, cadastre_trace_filter_isInsert, List.length_map,
      pyRange_length 0 cadastres.length OBJECTS_NUMBER_TO_INSERT_LIMIT (by decide)]
    have h : cadastres.length - 0 + OBJECTS_NUMBER_TO_INSERT_LIMIT - 1 =
        cadastres.length + 999 := by
      simp only [OBJECTS_NUMBER_TO_INSERT_LIMIT]
      omega
    rw [h]
    rfl
  · intro rows hmem
    rw [put_project_cadastres_to_db] at hmem
    rcases List.mem_append.mp hmem with h2 | h4
    · rcases List.mem_cons.mp h2 with h | h3
      · exact absurd h (by simp)
      · rcases List.mem_map.mp h3 with ⟨i, _, heq⟩
        injection heq with hpid hrows
        rw [← hrows, List.length_take]
        exact le_trans (min_le_left _ _) (by decide)
    · exact absurd (List.mem_singleton.mp h4) (by simp)
  · rw [put_project_cadastres_to_db]
    have hmap :
        ((CadastreStmt.deleteByProject projectId ::
            (pyRange 0 cadastres.length OBJECTS_NUMBER_TO_INSERT_LIMIT).map
              (fun batch_start =>
                CadastreStmt.insertBatch projectId
                  ((cadastres.drop batch_start).take OBJECTS_NUMBER_TO_INSERT_LIMIT))) ++
          [CadastreStmt.commitTxn]).map (fun s : CadastreStmt α => s.insertedRows) =
        ([] : List α) ::
          ((pyRange 0 cadastres.length OBJECTS_NUMBER_TO_INSERT_LIMIT).map
            (fun i => (cadastres.drop i).take OBJECTS_NUMBER_TO_INSERT_LIMIT)) ++ [[]] := by
      rw [List.map_append, List.map_cons, List.map_map]
      rfl
    rw [hmap, List.flatten_append, List.flatten_cons,
      pyRange_chunks_flatten cadastres 0 cadastres.length OBJECTS_NUMBER_TO_INSERT_LIMIT
        (by decide) rfl, List.drop_zero]
    simp
  · rw [put_project_cadastres_to_db, List.getLast?_concat]
  · rw [put_project_cadastres_to_db, cadastre_trace_filter_isCommit]

/-- Key equality is reflexive. -/
theorem sameBindKey_refl (b : BindRow) : sameBindKey b b = true := by
  simp [sameBindKey]

/-- Two rows sharing a third row's key share each other's key. -/
theorem sameBindKey_of_both (a c b : BindRow) (h1 : sameBindKey a b = true)
    (h2 : sameBindKey c b = true) : sameBindKey a c = true := by
  simp only [sameBindKey, Bool.and_eq_true, beq_iff_eq] at h1 h2 ⊢
  exact ⟨⟨h1.1.1.trans h2.1.1.symm, h1.1.2.trans h2.1.2.symm⟩, h1.2.trans h2.2.symm⟩

/-- Overwriting the value columns of a row that shares the upserted key
yields exactly the upserted payload. -/
theorem updatedRow_eq_of_key (b r : BindRow) (h : sameBindKey r b = true) :
    { r with min_value := b.min_value, max_value := b.max_value } = b := by
  simp only [sameBindKey, Bool.and_eq_true, beq_iff_eq] at h
  obtain ⟨ri, rt, rl, rmin, rmax⟩ := r
  obtain ⟨bi, bt, bl, bmin, bmax⟩ := b
  obtain ⟨⟨h1, h2⟩, h3⟩ := h
  simp_all

/-- The in-place update of the upsert preserves the key of a row. -/
theorem updatedRow_key (b r : BindRow) :
    sameBindKey
      (if sameBindKey r b then
        { r with min_value := b.min_value, max_value := b.max_value }
      else r) b = sameBindKey r b := by
  by_cases h : sameBindKey r b = true
  · rw [if_pos h]
    rfl
  · rw [if_neg h]

/-- Under the primary-key invariant, the rows of a table matching a fixed key
are none or exactly one. -/
theorem filter_key_unique (t : List BindRow) (b : BindRow) (hu : bindKeysUnique t) :
    t.filter (fun r => sameBindKey r b) = [] ∨
      ∃ r0, t.filter (fun r => sameBindKey r b) = [r0] ∧ sameBindKey r0 b = true := by
  induction t with
  | nil => exact Or.inl rfl
  | cons a as ih =>
    have hu2 : bindKeysUnique as := (List.pairwise_cons.mp hu).2
    have ha : ∀ x ∈ as, sameBindKey a x = false := (List.pairwise_cons.mp hu).1
    rcases ih hu2 with h | ⟨r0, h, hr0⟩
    · by_cases hpa : sameBindKey a b = true
      · exact Or.inr ⟨a, by simp [List.filter_cons, hpa, h], hpa⟩
      · exact Or.inl (by simp [List.filter_cons, hpa, h])
    · by_cases hpa : sameBindKey a b = true
      · exfalso
        have hr0mem : r0 ∈ as.filter (fun r => sameBindKey r b) := by
          rw [h]
          exact List.mem_singleton.mpr rfl
        have hr0as : r0 ∈ as := List.mem_of_mem_filter hr0mem
        have hkey : sameBindKey a r0 = true := sameBindKey_of_both a r0 b hpa hr0
        rw [ha r0 hr0as] at hkey
        exact Bool.noConfusion hkey
      · exact Or.inr ⟨r0, by simp [List.filter_cons, hpa, h], hr0⟩

/-- Reading back the upserted key after the upsert returns exactly the
upserted payload row, under the primary-key invariant. -/
theorem put_bind_key_rows (table : List BindRow) (bind : BindRow)
    (hu : bindKeysUnique table) :
    get_territory_indicators_binds_from_db (upsertTerritoryIndicatorBind table bind)
      bind.territory_id bind.level bind.indicator_id = [bind] := by
  have hpred : ∀ r : BindRow,
      (r.territory_id == bind.territory_id && r.level == bind.level &&
        r.indicator_id == bind.indicator_id) = sameBindKey r bind := by
    intro r
    simp only [sameBindKey]
    rw [Bool.and_right_comm]
  rw [get_territory_indicators_binds_from_db,
    List.filter_congr (fun r _ => hpred r)]
  by_cases hany : table.any (fun r => sameBindKey r bind) = true
  · rw [upsertTerritoryIndicatorBind, if_pos hany]
    have hcomp : ∀ r ∈ table,
        ((fun r => sameBindKey r bind) ∘ fun r =>
          if sameBindKey r bind then
            { r with min_value := bind.min_value, max_value := bind.max_value }
          else r) r = (fun r => sameBindKey r bind) r := by
      intro r _
      exact updatedRow_key bind r
    rw [List.filter_map, List.filter_congr hcomp]
    rcases filter_key_unique table bind hu with h | ⟨r0, h, hr0⟩
    · exfalso
      rcases List.any_eq_true.mp hany with ⟨r, hr, hkey⟩
      have : r ∈ table.filter (fun r => sameBindKey r bind) :=
        List.mem_filter.mpr ⟨hr, hkey⟩
      rw [h] at this
      exact List.not_mem_nil r this
    · rw [h, List.map_singleton, if_pos hr0, updatedRow_eq_of_key bind r0 hr0]
  · rw [upsertTerritoryIndicatorBind, if_neg hany, List.filter_append]
    have h1 : table.filter (fun r => sameBindKey r bind) = [] := by
      apply List.filter_eq_nil_iff.mpr
      intro r hr
      intro hkey
      exact absurd (List.any_eq_true.mpr ⟨r, hr, hkey⟩) hany
    rw [h1, List.nil_append]
    simp [List.filter_cons, sameBindKey_refl]

/-- The upsert of `put_territory_indicator_bind_to_db` is idempotent on the
table state. -/
theorem upsertTerritoryIndicatorBind_idem (table : List BindRow) (bind : BindRow) :
    upsertTerritoryIndicatorBind (upsertTerritoryIndicatorBind table bind) bind =
      upsertTerritoryIndicatorBind table bind := by
  by_cases hany : table.any (fun r => sameBindKey r bind) = true
  · have h1 : upsertTerritoryIndicatorBind table bind =
        table.map (fun r =>
          if sameBindKey r bind then
            { r with min_value := bind.min_value, max_value := bind.max_value }
          else r) := by
      rw [upsertTerritoryIndicatorBind, if_pos hany]
    have hany2 : (upsertTerritoryIndicatorBind table bind).any
        (fun r => sameBindKey r bind) = true := by
      rcases List.any_eq_true.mp hany with ⟨r, hr, hkey⟩
      apply List.any_eq_true.mpr
      refine ⟨if sameBindKey r bind then
          { r with min_value := bind.min_value, max_value := bind.max_value }
        else r, ?_, ?_⟩
      · rw [h1]
        exact List.mem_map_of_mem _ hr
      · rw [updatedRow_key]
        exact hkey
    rw [upsertTerritoryIndicatorBind, if_pos hany2, h1, List.map_map]
    apply List.map_congr_left
    intro r _
    simp only [Function.comp_apply]
    by_cases hk : sameBindKey r bind = true
    · rw [if_pos hk]
      have hk2 : sameBindKey
          { r with min_value := bind.min_value, max_value := bind.max_value } bind =
            true := hk
      rw [if_pos hk2]
    · rw [if_neg hk, if_neg hk]
  · have h1 : upsertTerritoryIndicatorBind table bind = table ++ [bind] := by
      rw [upsertTerritoryIndicatorBind, if_neg hany]
    have hany2 : (upsertTerritoryIndicatorBind table bind).any
        (fun r => sameBindKey r bind) = true := by
      apply List.any_eq_true.mpr
      exact ⟨bind, by rw [h1]; exact List.mem_append_right _ (List.mem_singleton.mpr rfl),
        sameBindKey_refl bind⟩
    rw [upsertTerritoryIndicatorBind, if_pos hany2, h1, List.map_append]
    have h2 : table.map (fun r =>
        if sameBindKey r bind then
          { r with min_value := bind.min_value, max_value := bind.max_value }
        else r) = table := by
      conv_rhs => rw [← List.map_id table]
      apply List.map_congr_left
      intro r hr
      have hfalse : sameBindKey r bind = false := by
        rcases Bool.eq_false_or_eq_true (sameBindKey r bind) with h | h
        · exact absurd (List.any_eq_true.mpr ⟨r, hr, h⟩) hany
        · exact h
      rw [if_neg (by simp [hfalse])]
      rfl
    have h3 : ([bind] : List BindRow).map (fun r =>
        if sameBindKey r bind then
          { r with min_value := bind.min_value, max_value := bind.max_value }
        else r) = [bind] := by
      rw [List.map_singleton, if_pos (sameBindKey_refl bind)]
    rw [h2, h3]

/-- C10: `put_territory_indicator_bind_to_db` is an idempotent upsert keyed
by (territory_id, indicator_id, level): repeating the call with the same
payload leaves the stored binds unchanged and returns the same single row;
an existing row's min/max values are overwritten in place and the key ends
up stored exactly once. -/
theorem c10_put_territory_indicator_bind_idempotent_upsert (table : List BindRow)
    (bind : BindRow) (hu : bindKeysUnique table) :
    put_territory_indicator_bind_to_db
        (put_territory_indicator_bind_to_db table bind).1 bind =
      put_territory_indicator_bind_to_db table bind
    ∧ (put_territory_indicator_bind_to_db table bind).2 = some bind
    ∧ get_territory_indicators_binds_from_db
        (put_territory_indicator_bind_to_db table bind).1 bind.territory_id bind.level
        bind.indicator_id = [bind] := by
  have hkey := put_bind_key_rows table bind hu
  refine ⟨?_, ?_, hkey⟩
  · simp only [put_territory_indicator_bind_to_db,
      upsertTerritoryIndicatorBind_idem]
  · simp only [put_territory_indicator_bind_to_db, hkey]
    rfl

/-- C10 witness: concrete run on a one-row table holding the same key with
different values. -/
theorem c10_put_territory_indicator_bind_witness :
    bindKeysUnique [(⟨2, 1, 3, 5, 6⟩ : BindRow)]
    ∧ put_territory_indicator_bind_to_db
        (put_territory_indicator_bind_to_db [(⟨2, 1, 3, 5, 6⟩ : BindRow)]
          ⟨2, 1, 3, 0, 100⟩).1 ⟨2, 1, 3, 0, 100⟩ =
      put_territory_indicator_bind_to_db [(⟨2, 1, 3, 5, 6⟩ : BindRow)]
        ⟨2, 1, 3, 0, 100⟩ :=
  ⟨by simp [bindKeysUnique],
    (c10_put_territory_indicator_bind_idempotent_upsert _ _
      (by simp [bindKeysUnique])).1⟩

/-- Characterization of the SQL `max()` aggregate on a list of naturals. -/
theorem natList_max?_eq_some_iff (l : List Nat) (a : Nat) :
    l.max? = some a ↔ a ∈ l ∧ ∀ b ∈ l, b ≤ a :=
  List.max?_eq_some_iff (fun x => le_refl x) (fun x y => max_choice x y)
    (fun _ _ _ => max_le_iff)

/-- Rows sharing a key have the same grouped maximum date. -/
theorem lastOnlyMaxDate_eq_of_key (rows : List IndicatorValueRow)
    (m r : IndicatorValueRow) (hk : sameValueKey m r) :
    lastOnlyMaxDate rows m.indicator_id m.value_type m.territory_id =
      lastOnlyMaxDate rows r.indicator_id r.value_type r.territory_id := by
  obtain ⟨h1, h2, h3⟩ := hk
  rw [lastOnlyMaxDate, lastOnlyMaxDate, h1, h2, h3]

/-- C8: with `last_only`, a row survives the grouped-maximum join exactly
when its date is the maximum among the rows sharing its own
(indicator, territory, value-type) key, and every key present in the input
keeps a representative — the maximum is taken per key combination, not
globally. -/
theorem c8_last_only_latest_per_key (rows : List IndicatorValueRow)
    (r : IndicatorValueRow) :
    (r ∈ lastOnlyJoin rows ↔
      r ∈ rows ∧ ∀ q ∈ rows, sameValueKey q r → q.date_value ≤ r.date_value)
    ∧ (r ∈ rows → ∃ m ∈ lastOnlyJoin rows, sameValueKey m r) := by
  constructor
  · constructor
    · intro hmem
      obtain ⟨hr, hp⟩ := List.mem_filter.mp hmem
      have hp2 : lastOnlyMaxDate rows r.indicator_id r.value_type r.territory_id =
          some r.date_value := eq_of_beq hp
      rw [lastOnlyMaxDate, natList_max?_eq_some_iff] at hp2
      obtain ⟨hmemd, hbound⟩ := hp2
      refine ⟨hr, ?_⟩
      intro q hq hkq
      apply hbound
      apply List.mem_map.mpr
      refine ⟨q, List.mem_filter.mpr ⟨hq, ?_⟩, rfl⟩
      simp [hkq.1, hkq.2.1, hkq.2.2]
    · intro hh
      obtain ⟨hr, hbound⟩ := hh
      apply List.mem_filter.mpr
      refine ⟨hr, ?_⟩
      have hmax : lastOnlyMaxDate rows r.indicator_id r.value_type r.territory_id =
          some r.date_value := by
        rw [lastOnlyMaxDate]
        apply (natList_max?_eq_some_iff _ _).mpr
        constructor
        · exact List.mem_map.mpr ⟨r, List.mem_filter.mpr ⟨hr, by simp⟩, rfl⟩
        · intro b hb
          obtain ⟨q, hqmem, hqd⟩ := List.mem_map.mp hb
          obtain ⟨hq, hqpred⟩ := List.mem_filter.mp hqmem
          simp only [Bool.and_eq_true, beq_iff_eq] at hqpred
          rw [← hqd]
          exact hbound q hq ⟨hqpred.1.1, hqpred.1.2, hqpred.2⟩
      simp [hmax]
  · intro hr
    have hmemd : r.date_value ∈ (rows.filter (fun q =>
        q.indicator_id == r.indicator_id && q.value_type == r.value_type &&
          q.territory_id == r.territory_id)).map (fun q => q.date_value) :=
      List.mem_map.mpr ⟨r, List.mem_filter.mpr ⟨hr, by simp⟩, rfl⟩
    obtain ⟨d, hd⟩ : ∃ d, ((rows.filter (fun q =>
        q.indicator_id == r.indicator_id && q.value_type == r.value_type &&
          q.territory_id == r.territory_id)).map (fun q => q.date_value)).max? =
        some d := by
      cases hmaxv : ((rows.filter (fun q =>
          q.indicator_id == r.indicator_id && q.value_type == r.value_type &&
            q.territory_id == r.territory_id)).map (fun q => q.date_value)).max? with
      | some d => exact ⟨d, rfl⟩
      | none =>
        rw [List.max?_eq_none_iff] at hmaxv
        rw [hmaxv] at hmemd
        exact absurd hmemd (List.not_mem_nil _)
    have hd2 := (natList_max?_eq_some_iff _ _).mp hd
    obtain ⟨hdmem, hdbound⟩ := hd2
    obtain ⟨m, hmmem, hmd⟩ := List.mem_map.mp hdmem
    obtain ⟨hmrows, hmpred⟩ := List.mem_filter.mp hmmem
    simp only [Bool.and_eq_true, beq_iff_eq] at hmpred
    have hkm : sameValueKey m r := ⟨hmpred.1.1, hmpred.1.2, hmpred.2⟩
    refine ⟨m, ?_, hkm⟩
    apply List.mem_filter.mpr
    refine ⟨hmrows, ?_⟩
    have hmmax : lastOnlyMaxDate rows m.indicator_id m.value_type m.territory_id =
        some m.date_value := by
      rw [lastOnlyMaxDate_eq_of_key rows m r hkm, lastOnlyMaxDate, hmd]
      exact hd
    simp [hmmax]

/-- C8 witness: concrete run of the grouped-maximum join on a one-row
input. -/
theorem c8_last_only_latest_per_key_witness :
    ∃ m ∈ lastOnlyJoin [(⟨1, 2, 10, "real", "src", 5⟩ : IndicatorValueRow)],
      sameValueKey m ⟨1, 2, 10, "real", "src", 5⟩ :=
  (c8_last_only_latest_per_key _ _).2 (by simp)

/-- C4: evaluation of the embedded query at a database where the only bind
row belongs to region 2 while the parent region of the requested territory is
region 1.  The WHERE clause `((binds.territory_id == parent_region_id) & ...)
| True` is vacuously true and the outer-join ON clause constrains only
(indicator_id, level), so the region-2 bind supplies the min/max bracket of
the returned value even though 2 ≠ 1 — against the claim that only the bind
keyed by (indicator, parent region, level) may do so.  The second conjunct
shows the part of the claim the code does satisfy: with no bind row at all
the value is still returned, with empty min/max fields. -/
theorem c4_bind_lookup_ignores_parent_region :
    get_indicator_values_by_territory_id_from_db
        [⟨5, 10, 100, "real", "src", 7⟩] [⟨10, "T", 3⟩] [⟨5, 2, 3, 0, 100⟩] 10 1 false =
      [⟨5, 10, 100, "real", "src", 7, "T", some 0, some 100⟩]
    ∧ get_indicator_values_by_territory_id_from_db
        [⟨5, 10, 100, "real", "src", 7⟩] [⟨10, "T", 3⟩]
        [⟨5, 1, 3, 0, 50⟩, ⟨5, 2, 3, 0, 100⟩] 10 1 false =
      [⟨5, 10, 100, "real", "src", 7, "T", some 0, some 50⟩,
       ⟨5, 10, 100, "real", "src", 7, "T", some 0, some 100⟩]
    ∧ get_indicator_values_by_territory_id_from_db
        [⟨5, 10, 100, "real", "src", 7⟩] [⟨10, "T", 3⟩] [] 10 1 false =
      [⟨5, 10, 100, "real", "src", 7, "T", none, none⟩]
    ∧ (2 : Nat) ≠ 1 := by
  refine ⟨?_, ?_, ?_, by decide⟩
  · rfl
  · rfl
  · rfl

/-- C6: with no explicit geometry, the public trigger builds the buffer from
the default radius row selected for (buffer type, physical-object type or
service type — the matched dictionary row scopes exactly one of the two) and
stores the buffer minus the object's own footprint (a ring: no point of the
footprint remains); a missing object geometry raises P0111 and a missing
radius row raises P0112, and both codes translate to the custom-trigger
domain error. -/
theorem c6_default_buffer_ring_and_trigger_errors (stBuffer : Geom → ℚ → Geom)
    (stMakeValid : Geom → Geom) (ctx : PublicBufferCtx)
    (dict : List DefaultBufferValue) (buffer_type_id : Nat) :
    (ctx.object_geom = none →
      trigger_set_default_buffer_geometry_public stBuffer stMakeValid ctx dict
          buffer_type_id none = Except.error { errcode := "P0111" }
      ∧ translate_db_error ["P0111"] "" = IduApiError.customTriggerError)
    ∧ (∀ g, ctx.object_geom = some g →
        default_buffer_radius_lookup dict buffer_type_id
            (if ctx.service_id = none then ctx.pod_physical_object_type_id else none)
            (if ctx.service_id ≠ none then ctx.sd_service_type_id else none) = none →
          trigger_set_default_buffer_geometry_public stBuffer stMakeValid ctx dict
              buffer_type_id none = Except.error { errcode := "P0112" }
          ∧ translate_db_error ["P0112"] "" = IduApiError.customTriggerError)
    ∧ (∀ g row, ctx.object_geom = some g →
        default_buffer_radius_lookup dict buffer_type_id
            (if ctx.service_id = none then ctx.pod_physical_object_type_id else none)
            (if ctx.service_id ≠ none then ctx.sd_service_type_id else none) = some row →
          trigger_set_default_buffer_geometry_public stBuffer stMakeValid ctx dict
              buffer_type_id none =
            Except.ok
              { geometry := some (stBuffer g row.buffer_value \ g), notices := [] }
          ∧ (∀ p ∈ g, p ∉ stBuffer g row.buffer_value \ g)
          ∧ row ∈ dict
          ∧ row.buffer_type_id = buffer_type_id
          ∧ ((row.physical_object_type_id ≠ none ∧ row.service_type_id = none) ∨
              (row.service_type_id ≠ none ∧ row.physical_object_type_id = none))) := by
  refine ⟨?_, ?_, ?_⟩
  · intro h
    refine ⟨?_, by decide⟩
    simp only [trigger_set_default_buffer_geometry_public, h]
  · intro g hg hlook
    refine ⟨?_, by decide⟩
    simp only [trigger_set_default_buffer_geometry_public, hg, hlook]
  · intro g row hg hlook
    have hmemf : row ∈ dict.filter (fun row =>
        row.buffer_type_id == buffer_type_id &&
          (((if ctx.service_id = none then ctx.pod_physical_object_type_id
              else none).isSome &&
            (if ctx.service_id = none then ctx.pod_physical_object_type_id
              else none) == row.physical_object_type_id &&
            row.service_type_id == none)
            ||
            ((if ctx.service_id ≠ none then ctx.sd_service_type_id
                else none).isSome &&
              (if ctx.service_id ≠ none then ctx.sd_service_type_id
                else none) == row.service_type_id &&
              row.physical_object_type_id == none))) := by
      rw [default_buffer_radius_lookup] at hlook
      obtain ⟨ys, hys⟩ := List.head?_eq_some_iff.mp hlook
      rw [hys]
      exact List.mem_cons_self _ _
    obtain ⟨hdict, hpred⟩ := List.mem_filter.mp hmemf
    simp only [Bool.and_eq_true, Bool.or_eq_true, beq_iff_eq] at hpred
    refine ⟨?_, ?_, hdict, hpred.1, ?_⟩
    · simp only [trigger_set_default_buffer_geometry_public, hg, hlook]
    · intro p hp
      simp [Finset.mem_sdiff, hp]
    · rcases hpred.2 with ⟨⟨hsome, heq⟩, hstnone⟩ | ⟨⟨hsome, heq⟩, hpotnone⟩
      · left
        refine ⟨?_, hstnone⟩
        rw [← heq]
        exact Option.isSome_iff_ne_none.mp hsome
      · right
        refine ⟨?_, hpotnone⟩
        rw [← heq]
        exact Option.isSome_iff_ne_none.mp hsome

/-- C6 witness: concrete run of the public trigger producing the ring
buffer. -/
theorem c6_default_buffer_witness :
    trigger_set_default_buffer_geometry_public
        (fun g _ => insert ((5 : Int), (5 : Int)) g) id
        ⟨none, some 7, none, some {((0 : Int), (0 : Int))}⟩
        [⟨3, some 7, none, 10⟩] 3 none =
      Except.ok
        { geometry := some
            ((insert ((5 : Int), (5 : Int)) {((0 : Int), (0 : Int))}) \
              {((0 : Int), (0 : Int))})
          notices := [] } :=
  ((c6_default_buffer_ring_and_trigger_errors
      (fun g _ => insert ((5 : Int), (5 : Int)) g) id
      ⟨none, some 7, none, some {((0 : Int), (0 : Int))}⟩
      [⟨3, some 7, none, 10⟩] 3).2.2 {((0 : Int), (0 : Int))}
      ⟨3, some 7, none, 10⟩ rfl (by decide)).1

/-- C7: evaluation of the user_projects trigger at a non-regional project.
First conjunct (derived branch, NEW.geometry NULL): although the radius row
exists and the project join returns the territory polygon with
`is_regional = false`, the stored geometry is NULL and only the
buffer-generation-failed notice is emitted — the protected assignment reads
the undeclared `v_buffer_value`, so the derived buffer is never built, let
alone intersected with the territory.  Second and third conjuncts (provided
branch): the stored geometry is exactly `ST_Difference(ST_MakeValid(NEW),
object footprint)` with no intersection against the project territory —
indeed it is not contained in the territory polygon `{(0,0)}` — because the
clipping guard reads `v_project_geom`, which is never assigned in this
branch.  Fourth conjunct: an empty result geometry in the provided branch is
stored with a warning notice, not raised as an error. -/
theorem c7_user_projects_trigger_never_clips :
    trigger_set_default_buffer_geometry_user_projects (fun g _ => g) id
        ⟨none, none, some 4, some 7, none, none, none, some {((1 : Int), (1 : Int))},
          some (some {((0 : Int), (0 : Int))}, false)⟩
        [⟨3, some 7, none, 10⟩] 3 none =
      Except.ok { geometry := none, notices := ["Buffer generation failed"] }
    ∧ trigger_set_default_buffer_geometry_user_projects (fun g _ => g) id
        ⟨none, none, some 4, some 7, none, none, none, some {((1 : Int), (1 : Int))},
          some (some {((0 : Int), (0 : Int))}, false)⟩
        [⟨3, some 7, none, 10⟩] 3
        (some {((2 : Int), (2 : Int)), ((0 : Int), (0 : Int))}) =
      Except.ok
        { geometry := some
            (({((2 : Int), (2 : Int)), ((0 : Int), (0 : Int))} : Geom) \
              {((1 : Int), (1 : Int))})
          notices := [] }
    ∧ ({((2 : Int), (2 : Int)), ((0 : Int), (0 : Int))} : Geom) \
        {((1 : Int), (1 : Int))} = {((2 : Int), (2 : Int)), ((0 : Int), (0 : Int))}
    ∧ ¬({((2 : Int), (2 : Int)), ((0 : Int), (0 : Int))} : Geom) ⊆
        {((0 : Int), (0 : Int))}
    ∧ trigger_set_default_buffer_geometry_user_projects (fun g _ => g) id
        ⟨none, none, some 4, some 7, none, none, none, some {((1 : Int), (1 : Int))},
          some (some {((0 : Int), (0 : Int))}, false)⟩
        [⟨3, some 7, none, 10⟩] 3 (some {((1 : Int), (1 : Int))}) =
      Except.ok
        { geometry := some
            (({((1 : Int), (1 : Int))} : Geom) \ {((1 : Int), (1 : Int))})
          notices := ["Resulting provided-buffer geometry is empty"] }
    ∧ ({((1 : Int), (1 : Int))} : Geom) \ {((1 : Int), (1 : Int))} = ∅ := by
  refine ⟨rfl, rfl, by decide, by decide, rfl, by decide⟩

/-- Membership characterization of the excluded-base-id set. -/
theorem excludedBaseIds_mem_iff (db : OverlayDb) (scenario_id bid : Nat) :
    bid ∈ excludedBaseIds db scenario_id ↔
      ∃ l ∈ db.scenario_links, l.scenario_id = scenario_id ∧
        l.public_urban_object_id = some bid := by
  rw [excludedBaseIds]
  constructor
  · intro h
    obtain ⟨l, hl, hpub⟩ := List.mem_filterMap.mp h
    obtain ⟨hlmem, hpred⟩ := List.mem_filter.mp hl
    simp only [Bool.and_eq_true, beq_iff_eq] at hpred
    exact ⟨l, hlmem, hpred.1, hpub⟩
  · intro h
    obtain ⟨l, hlmem, hsid, hpub⟩ := h
    apply List.mem_filterMap.mpr
    refine ⟨l, List.mem_filter.mpr ⟨hlmem, ?_⟩, hpub⟩
    simp [hsid, hpub]

/-- C2: the resolved view of a scenario is the union of the base branch and
the scenario branch; the excluded-base-id set is exactly the set of base
identities pointed at by the scenario's non-null `public_urban_object_id`
rows (tombstones and promotion markers); the base branch contributes nothing
for any base urban object whose id is so pointed at; and the scenario branch
draws only from the scenario's rows whose pointer is null — so a base row
and its overriding scenario row never co-appear in the union. -/
theorem c2_resolve_union_no_double_identity (db : OverlayDb) (scenario_id : Nat)
    (reach : List Nat) :
    resolveScenario db scenario_id reach =
      baseBranch db scenario_id reach ++
        (scenarioBranchLinks db scenario_id).map (mergeScenarioRow db)
    ∧ (∀ bid, bid ∈ excludedBaseIds db scenario_id ↔
        ∃ l ∈ db.scenario_links, l.scenario_id = scenario_id ∧
          l.public_urban_object_id = some bid)
    ∧ (∀ l ∈ db.scenario_links, l.scenario_id = scenario_id →
        ∀ bid, l.public_urban_object_id = some bid →
          ∀ b ∈ db.base_urban_objects, b.urban_object_id = bid →
            baseBranchRow db scenario_id reach b = none)
    ∧ (∀ l ∈ scenarioBranchLinks db scenario_id,
        l.scenario_id = scenario_id ∧ l.public_urban_object_id = none) := by
  refine ⟨rfl, fun bid => excludedBaseIds_mem_iff db scenario_id bid, ?_, ?_⟩
  · intro l hl hsid bid hpub b hb hbid
    have hbidmem : b.urban_object_id ∈ excludedBaseIds db scenario_id := by
      rw [hbid]
      exact (excludedBaseIds_mem_iff db scenario_id bid).mpr ⟨l, hl, hsid, hpub⟩
    cases hpo : findPhysObj db.base_physical_objects (some b.physical_object_id) with
    | none => simp only [baseBranchRow, hpo]
    | some po =>
      cases hge : findObjGeom db.base_object_geometries (some b.object_geometry_id) with
      | none => simp only [baseBranchRow, hpo, hge]
      | some ge =>
        simp only [baseBranchRow, hpo, hge]
        exact if_neg (fun hcon => hcon.1 hbidmem)
  · intro l hl
    obtain ⟨hlmem, hpred⟩ := List.mem_filter.mp hl
    simp only [Bool.and_eq_true, beq_iff_eq] at hpred
    exact hpred

/-- C2 witness: in a database where scenario 50 holds a promotion marker for
base urban object 1 and an owned row, the base branch drops base urban
object 1. -/
theorem c2_resolve_union_no_double_identity_witness :
    baseBranchRow
        ⟨[⟨1, 100, 200⟩], [⟨100, "old", "p"⟩], [⟨200, 7, {((0 : Int), (0 : Int))}⟩],
          [⟨50, some 1, none, none, none, none⟩,
            ⟨50, none, some 300, none, none, some 200⟩],
          [⟨300, "new", "q"⟩], []⟩ 50 [7] ⟨1, 100, 200⟩ = none :=
  (c2_resolve_union_no_double_identity
      ⟨[⟨1, 100, 200⟩], [⟨100, "old", "p"⟩], [⟨200, 7, {((0 : Int), (0 : Int))}⟩],
        [⟨50, some 1, none, none, none, none⟩,
          ⟨50, none, some 300, none, none, some 200⟩],
        [⟨300, "new", "q"⟩], []⟩ 50 [7]).2.2.1
    ⟨50, some 1, none, none, none, none⟩ (by decide) rfl 1 rfl ⟨1, 100, 200⟩
    (by decide) rfl

/-- C3: every scenario-contributed row is built column by column with
coalesce-by-priority — the scenario-owned payload value is used where
present, the base payload fills the remaining columns (a geometry the owned
row did not override is pulled from the base pointer) — and
`is_scenario_object` is true exactly when the link's own `physical_object_id`
is non-null. -/
theorem c3_scenario_rows_coalesce_by_priority (db : OverlayDb) (l : ScenarioLink) :
    (mergeScenarioRow db l).is_scenario_object = l.physical_object_id.isSome
    ∧ (mergeScenarioRow db l).origin = RowOrigin.scenario
    ∧ (∀ spo, findPhysObj db.scenario_physical_objects l.physical_object_id = some spo →
        (mergeScenarioRow db l).physical_object_id = some spo.physical_object_id
        ∧ (mergeScenarioRow db l).name = some spo.name
        ∧ (mergeScenarioRow db l).properties = some spo.properties)
    ∧ (findPhysObj db.scenario_physical_objects l.physical_object_id = none →
        (mergeScenarioRow db l).physical_object_id =
          (findPhysObj db.base_physical_objects l.public_physical_object_id).map
            (fun r => r.physical_object_id)
        ∧ (mergeScenarioRow db l).name =
          (findPhysObj db.base_physical_objects l.public_physical_object_id).map
            (fun r => r.name)
        ∧ (mergeScenarioRow db l).properties =
          (findPhysObj db.base_physical_objects l.public_physical_object_id).map
            (fun r => r.properties))
    ∧ (∀ sge, findObjGeom db.scenario_object_geometries l.object_geometry_id = some sge →
        (mergeScenarioRow db l).territory_id = some sge.territory_id)
    ∧ (findObjGeom db.scenario_object_geometries l.object_geometry_id = none →
        (mergeScenarioRow db l).territory_id =
          (findObjGeom db.base_object_geometries l.public_object_geometry_id).map
            (fun r => r.territory_id)) := by
  refine ⟨rfl, rfl, ?_, ?_, ?_, ?_⟩
  · intro spo hspo
    simp only [mergeScenarioRow, hspo, coalesceOpt, Option.map_some']
    simp
  · intro hnone
    simp only [mergeScenarioRow, hnone, coalesceOpt, Option.map_none]
    refine ⟨?_, ?_, ?_⟩ <;>
      cases findPhysObj db.base_physical_objects l.public_physical_object_id <;> rfl
  · intro sge hsge
    simp only [mergeScenarioRow, hsge, coalesceOpt, Option.map_some']
  · intro hnone
    simp only [mergeScenarioRow, hnone, coalesceOpt, Option.map_none]
    cases findObjGeom db.base_object_geometries l.public_object_geometry_id <;> rfl

/-- C3 witness: the owned-with-pointer row of the C2 witness database keeps
the base geometry's territory while carrying its own payload. -/
theorem c3_scenario_rows_coalesce_witness :
    (mergeScenarioRow
        ⟨[⟨1, 100, 200⟩], [⟨100, "old", "p"⟩], [⟨200, 7, {((0 : Int), (0 : Int))}⟩],
          [⟨50, some 1, none, none, none, none⟩,
            ⟨50, none, some 300, none, none, some 200⟩],
          [⟨300, "new", "q"⟩], []⟩
        ⟨50, none, some 300, none, none, some 200⟩).name = some ("new") := by
  exact ((c3_scenario_rows_coalesce_by_priority
      ⟨[⟨1, 100, 200⟩], [⟨100, "old", "p"⟩], [⟨200, 7, {((0 : Int), (0 : Int))}⟩],
        [⟨50, some 1, none, none, none, none⟩,
          ⟨50, none, some 300, none, none, some 200⟩],
        [⟨300, "new", "q"⟩], []⟩
      ⟨50, none, some 300, none, none, some 200⟩).2.2.1 ⟨300, "new", "q"⟩ rfl).2.1

/-- C5: a context read has the two-branch union shape with the
reachable-territory predicate replaced by spatial intersection against the
caller-supplied boundary: every returned row carries a geometry clipped by
intersection with the boundary, rows whose clipped geometry is empty are
dropped (every returned geometry is nonempty and contained in the boundary),
base identities excluded by the scenario contribute nothing, and every base
contribution stems from a base geometry that intersects the boundary. -/
theorem c5_context_two_branch_clipped (db : OverlayDb) (scenario_id : Nat)
    (boundary : Geom) :
    get_context_physical_objects db scenario_id boundary =
      db.base_urban_objects.filterMap (contextBaseBranchRow db scenario_id boundary) ++
        (scenarioBranchLinks db scenario_id).filterMap
          (contextScenarioBranchRow db boundary)
    ∧ (∀ r ∈ get_context_physical_objects db scenario_id boundary,
        r.geometry ≠ ∅ ∧ r.geometry ⊆ boundary ∧ ∃ g0, r.geometry = g0 ∩ boundary)
    ∧ (∀ b ∈ db.base_urban_objects,
        b.urban_object_id ∈ excludedBaseIds db scenario_id →
          contextBaseBranchRow db scenario_id boundary b = none)
    ∧ (∀ b r, contextBaseBranchRow db scenario_id boundary b = some r →
        ∃ ge, findObjGeom db.base_object_geometries (some b.object_geometry_id) =
            some ge
          ∧ ge.geometry ∩ boundary ≠ ∅ ∧ r.geometry = ge.geometry ∩ boundary) := by
  refine ⟨rfl, ?_, ?_, ?_⟩
  · intro r hr
    rcases List.mem_append.mp hr with hbase | hscen
    · obtain ⟨b, _, hsome⟩ := List.mem_filterMap.mp hbase
      cases hpo : findPhysObj db.base_physical_objects (some b.physical_object_id) with
      | none =>
        simp only [contextBaseBranchRow, hpo] at hsome
        exact Option.noConfusion hsome
      | some po =>
        cases hge : findObjGeom db.base_object_geometries
            (some b.object_geometry_id) with
        | none =>
          simp only [contextBaseBranchRow, hpo, hge] at hsome
          exact Option.noConfusion hsome
        | some ge =>
          simp only [contextBaseBranchRow, hpo, hge] at hsome
          split_ifs at hsome with h1 h2
          all_goals try exact Option.noConfusion hsome
          obtain rfl := Option.some.inj hsome
          exact ⟨h2, Finset.inter_subset_right, ge.geometry, rfl⟩
    · obtain ⟨l, _, hsome⟩ := List.mem_filterMap.mp hscen
      cases hcg : coalesceOpt
          ((findObjGeom db.scenario_object_geometries l.object_geometry_id).map
            (fun r => r.geometry))
          ((findObjGeom db.base_object_geometries l.public_object_geometry_id).map
            (fun r => r.geometry)) with
      | none =>
        simp only [contextScenarioBranchRow, hcg] at hsome
        exact Option.noConfusion hsome
      | some g =>
        simp only [contextScenarioBranchRow, hcg] at hsome
        split_ifs at hsome with h2
        all_goals try exact Option.noConfusion hsome
        obtain rfl := Option.some.inj hsome
        exact ⟨h2, Finset.inter_subset_right, g, rfl⟩
  · intro b _ hexcl
    cases hpo : findPhysObj db.base_physical_objects (some b.physical_object_id) with
    | none => simp only [contextBaseBranchRow, hpo]
    | some po =>
      cases hge : findObjGeom db.base_object_geometries (some b.object_geometry_id) with
      | none => simp only [contextBaseBranchRow, hpo, hge]
      | some ge =>
        simp only [contextBaseBranchRow, hpo, hge]
        exact if_neg (fun hcon => hcon.1 hexcl)
  · intro b r hsome
    cases hpo : findPhysObj db.base_physical_objects (some b.physical_object_id) with
    | none =>
      simp only [contextBaseBranchRow, hpo] at hsome
      exact Option.noConfusion hsome
    | some po =>
      cases hge : findObjGeom db.base_object_geometries (some b.object_geometry_id) with
      | none =>
        simp only [contextBaseBranchRow, hpo, hge] at hsome
        exact Option.noConfusion hsome
      | some ge =>
        simp only [contextBaseBranchRow, hpo, hge] at hsome
        split_ifs at hsome with h1 h2
        all_goals try exact Option.noConfusion hsome
        obtain rfl := Option.some.inj hsome
        exact ⟨ge, rfl, h2, rfl⟩

/-- C5 witness: a context read over the C2 witness database with a boundary
covering the base geometry returns rows, each clipped and nonempty. -/
theorem c5_context_two_branch_clipped_witness :
    ∀ r ∈ get_context_physical_objects
        ⟨[⟨1, 100, 200⟩], [⟨100, "old", "p"⟩], [⟨200, 7, {((0 : Int), (0 : Int))}⟩],
          [⟨50, none, some 300, none, none, some 200⟩], [⟨300, "new", "q"⟩], []⟩
        50 {((0 : Int), (0 : Int)), ((3 : Int), (3 : Int))},
      r.geometry ≠ ∅ ∧ r.geometry ⊆ {((0 : Int), (0 : Int)), ((3 : Int), (3 : Int))} ∧
        ∃ g0, r.geometry = g0 ∩ {((0 : Int), (0 : Int)), ((3 : Int), (3 : Int))} :=
  (c5_context_two_branch_clipped
      ⟨[⟨1, 100, 200⟩], [⟨100, "old", "p"⟩], [⟨200, 7, {((0 : Int), (0 : Int))}⟩],
        [⟨50, none, some 300, none, none, some 200⟩], [⟨300, "new", "q"⟩], []⟩
      50 {((0 : Int), (0 : Int)), ((3 : Int), (3 : Int))}).2.1

/-- Filtering the links of a scenario after a promotion for the owned-row
predicate finds exactly the freshly inserted owned row. -/
theorem filter_owned_pair (links : List ScenarioLink) (sid poId : Nat)
    (T O : ScenarioLink) (hT : T.physical_object_id = none)
    (hOsid : O.scenario_id = sid) (hOpo : O.physical_object_id = some poId)
    (hfresh : ∀ l ∈ links, l.physical_object_id ≠ some poId) :
    (links ++ [T, O]).filter
      (fun l => l.scenario_id == sid && l.physical_object_id == some poId) = [O] := by
  rw [List.filter_append]
  have h1 : links.filter
      (fun l => l.scenario_id == sid && l.physical_object_id == some poId) = [] := by
    apply List.filter_eq_nil_iff.mpr
    intro l hl hpred
    simp only [Bool.and_eq_true, beq_iff_eq] at hpred
    exact hfresh l hl hpred.2
  rw [h1, List.nil_append]
  simp [List.filter_cons, hT, hOsid, hOpo,
    show ∀ x : Nat, ((none : Option Nat) == some x) = false from fun _ => rfl]

/-- Deleting the promoted pair leaves every pre-existing link untouched: the
owned-row predicate misses them by freshness and the released-tombstone
predicate misses them because the scenario held no marker for any base
identity sharing the promoted object's geometry. -/
theorem filter_keep_restores (links : List ScenarioLink) (sid poId : Nat)
    (T O : ScenarioLink) (Rel : List Nat)
    (hTsid : T.scenario_id = sid) (hTpub : ∃ x ∈ Rel, T.public_urban_object_id = some x)
    (hOsid : O.scenario_id = sid) (hOpo : O.physical_object_id = some poId)
    (hfresh : ∀ l ∈ links, l.physical_object_id ≠ some poId)
    (hsafe : ∀ l ∈ links, l.scenario_id = sid →
      ∀ x ∈ Rel, l.public_urban_object_id ≠ some x) :
    (links ++ [T, O]).filter (fun l =>
      !(l.scenario_id == sid && l.physical_object_id == some poId) &&
        !(l.scenario_id == sid &&
          l.public_urban_object_id.any (fun bid => Rel.contains bid))) = links := by
  rw [List.filter_append]
  have hkeepl : links.filter (fun l =>
      !(l.scenario_id == sid && l.physical_object_id == some poId) &&
        !(l.scenario_id == sid &&
          l.public_urban_object_id.any (fun bid => Rel.contains bid))) = links := by
    apply List.filter_eq_self.mpr
    intro l hl
    have h1 : (l.physical_object_id == some poId) = false :=
      beq_eq_false_iff_ne.mpr (hfresh l hl)
    by_cases hsid : l.scenario_id = sid
    · have h2 : l.public_urban_object_id.any (fun bid => Rel.contains bid) = false := by
        cases hpub : l.public_urban_object_id with
        | none => rfl
        | some x =>
          apply Bool.eq_false_iff.mpr
          intro hcon
          have hxmem : x ∈ Rel := List.elem_iff.mp hcon
          exact absurd hpub (hsafe l hl hsid x hxmem)
      simp only [h1, h2, Bool.and_false, Bool.not_false, Bool.and_self]
    · have h3 : (l.scenario_id == sid) = false := beq_eq_false_iff_ne.mpr hsid
      simp only [h3, Bool.false_and, Bool.not_false, Bool.and_self]
  have hpair : ([T, O] : List ScenarioLink).filter (fun l =>
      !(l.scenario_id == sid && l.physical_object_id == some poId) &&
        !(l.scenario_id == sid &&
          l.public_urban_object_id.any (fun bid => Rel.contains bid))) = [] := by
    apply List.filter_eq_nil_iff.mpr
    intro a ha
    obtain ⟨x, hxRel, hTpub2⟩ := hTpub
    have hcontains : Rel.contains x = true := List.elem_iff.mpr hxRel
    rcases List.mem_cons.mp ha with rfl | ha2
    · have hT2 : a.public_urban_object_id.any (fun bid => Rel.contains bid) = true := by
        rw [hTpub2]
        exact hcontains
      simp only [hTsid, beq_self_eq_true, hT2, Bool.true_and, Bool.not_true,
        Bool.and_false]
      exact Bool.false_ne_true
    · rcases List.mem_cons.mp ha2 with rfl | ha3
      · simp only [hOsid, hOpo, beq_self_eq_true, Bool.true_and, Bool.and_self,
          Bool.not_true, Bool.false_and]
        exact Bool.false_ne_true
      · exact absurd ha3 (List.not_mem_nil a)
  rw [hkeepl, hpair, List.append_nil]

/-- Deleting the promoted payload row removes it and only it from the
scenario-owned physical-object table. -/
theorem filter_spos_restores (spos : List PhysObjRow) (newPo : PhysObjRow)
    (hfresh : ∀ p ∈ spos, p.physical_object_id ≠ newPo.physical_object_id) :
    (spos ++ [newPo]).filter
      (fun p => p.physical_object_id != newPo.physical_object_id) = spos := by
  rw [List.filter_append]
  have h1 : spos.filter
      (fun p => p.physical_object_id != newPo.physical_object_id) = spos := by
    apply List.filter_eq_self.mpr
    intro p hp
    simp [hfresh p hp]
  have h2 : ([newPo] : List PhysObjRow).filter
      (fun p => p.physical_object_id != newPo.physical_object_id) = [] := by
    simp [List.filter_cons]
  rw [h1, h2, List.append_nil]

/-- C1: promoting a base identity in a scenario (inserting the paired
promotion marker and the owned row with a base pointer) and then deleting
the scenario-owned row restores the database exactly — the paired tombstone
is deleted with the owned row — so the identity reverts to Inherited: it is
no longer excluded and the resolver returns the base row (origin base)
again. -/
theorem c1_delete_promoted_restores_inherited (db : OverlayDb) (scenario_id : Nat)
    (reach : List Nat) (b : BaseUrbanObject) (newPo : PhysObjRow)
    (hb : b ∈ db.base_urban_objects)
    (hfresh1 : ∀ l ∈ db.scenario_links,
      l.physical_object_id ≠ some newPo.physical_object_id)
    (hfresh2 : ∀ p ∈ db.scenario_physical_objects,
      p.physical_object_id ≠ newPo.physical_object_id)
    (huntouched : ∀ l ∈ db.scenario_links, l.scenario_id = scenario_id →
      ∀ b2 ∈ db.base_urban_objects, b2.object_geometry_id = b.object_geometry_id →
        l.public_urban_object_id ≠ some b2.urban_object_id) :
    delete_physical_object_scenario (promoteOnEdit db scenario_id b newPo) scenario_id
        newPo.physical_object_id = db
    ∧ resolveScenario (delete_physical_object_scenario
        (promoteOnEdit db scenario_id b newPo) scenario_id newPo.physical_object_id)
        scenario_id reach = resolveScenario db scenario_id reach
    ∧ b.urban_object_id ∉ excludedBaseIds (delete_physical_object_scenario
        (promoteOnEdit db scenario_id b newPo) scenario_id newPo.physical_object_id)
        scenario_id
    ∧ (∀ po ge,
        findPhysObj db.base_physical_objects (some b.physical_object_id) = some po →
        findObjGeom db.base_object_geometries (some b.object_geometry_id) = some ge →
        ge.territory_id ∈ reach →
        ({ physical_object_id := some po.physical_object_id
           name := some po.name
           properties := some po.properties
           territory_id := some ge.territory_id
           is_scenario_object := false
           origin := RowOrigin.base } : ResolvedRow) ∈
          resolveScenario (delete_physical_object_scenario
            (promoteOnEdit db scenario_id b newPo) scenario_id
            newPo.physical_object_id) scenario_id reach) := by
  have hmain : delete_physical_object_scenario (promoteOnEdit db scenario_id b newPo)
      scenario_id newPo.physical_object_id = db := by
    obtain ⟨bus, bpos, bges, links, spos, sges⟩ := db
    simp only [promoteOnEdit, delete_physical_object_scenario]
    rw [filter_owned_pair links scenario_id newPo.physical_object_id
      ⟨scenario_id, some b.urban_object_id, none, none, none, none⟩
      ⟨scenario_id, none, some newPo.physical_object_id, none, none,
        some b.object_geometry_id⟩ rfl rfl rfl hfresh1]
    rw [List.flatMap_cons, List.flatMap_nil, List.append_nil]
    simp only [pairedBaseIds]
    rw [OverlayDb.mk.injEq]
    refine ⟨rfl, rfl, rfl, ?_, ?_, rfl⟩
    · refine filter_keep_restores links scenario_id newPo.physical_object_id _ _ _
        rfl ?_ rfl rfl hfresh1 ?_
      · refine ⟨b.urban_object_id, ?_, rfl⟩
        refine List.mem_map.mpr ⟨b, List.mem_filter.mpr ⟨hb, ?_⟩, rfl⟩
        simp
      · intro l hl hsid x hx
        obtain ⟨b2, hb2f, hxeq⟩ := List.mem_map.mp hx
        obtain ⟨hb2, hpredb2⟩ := List.mem_filter.mp hb2f
        have hgeom : b.object_geometry_id = b2.object_geometry_id := by
          simpa using hpredb2
        rw [← hxeq]
        exact huntouched l hl hsid b2 hb2 hgeom.symm
    · exact filter_spos_restores spos newPo hfresh2
  have hnotexcl : b.urban_object_id ∉ excludedBaseIds db scenario_id := by
    intro hmem
    obtain ⟨l, hlmem, hsid, hpub⟩ :=
      (excludedBaseIds_mem_iff db scenario_id b.urban_object_id).mp hmem
    exact huntouched l hlmem hsid b hb rfl hpub
  refine ⟨hmain, by rw [hmain], by rw [hmain]; exact hnotexcl, ?_⟩
  intro po ge hpo hge hreach
  rw [hmain]
  apply List.mem_append.mpr
  left
  apply List.mem_filterMap.mpr
  refine ⟨b, hb, ?_⟩
  simp only [baseBranchRow, hpo, hge]
  rw [if_pos ⟨hnotexcl, hreach⟩]

/-- C1 witness: promoting the single base object of a one-object database in
scenario 50 and then deleting the promoted row restores the database
exactly. -/
theorem c1_delete_promoted_restores_inherited_witness :
    delete_physical_object_scenario
        (promoteOnEdit
          ⟨[⟨1, 100, 200⟩], [⟨100, "old", "p"⟩], [⟨200, 7, {((0 : Int), (0 : Int))}⟩],
            [], [], []⟩ 50 ⟨1, 100, 200⟩ ⟨300, "new", "q"⟩) 50 300 =
      ⟨[⟨1, 100, 200⟩], [⟨100, "old", "p"⟩], [⟨200, 7, {((0 : Int), (0 : Int))}⟩],
        [], [], []⟩ :=
  (c1_delete_promoted_restores_inherited
      ⟨[⟨1, 100, 200⟩], [⟨100, "old", "p"⟩], [⟨200, 7, {((0 : Int), (0 : Int))}⟩],
        [], [], []⟩ 50 [7] ⟨1, 100, 200⟩ ⟨300, "new", "q"⟩
      (by decide) (by simp) (by simp) (by simp)).1

/-- C9 witness: concrete three-row upload executes one insert batch and one
trailing commit. -/
theorem c9_cadastre_bulk_upload_witness :
    ((put_project_cadastres_to_db [0, 1, 2] 5).filter (fun s => s.isCommit)) =
        [CadastreStmt.commitTxn]
    ∧ ((put_project_cadastres_to_db [0, 1, 2] 5).filter
        (fun s => s.isInsert)).length = 1 :=
  ⟨(c9_cadastre_bulk_upload_batches_and_single_commit [0, 1, 2] 5).2.2.2.2.1,
    (c9_cadastre_bulk_upload_batches_and_single_commit [0, 1, 2] 5).1⟩
